import Mathlib

/-!
Shallow embedding of `src/app.py` (a Flask app wrapping a YOLO detector):
module-level shared state, the video ingest worker `process_video`, and the
HTTP handlers `upload_image`, `upload_video`, `camera_feed`,
`camera_counts`, `detection_counts`, `final_counts`, `stop_stream`,
`stop_camera`.

External collaborators (the YOLO model, OpenCV decode/encode, annotators)
are out of scope per the spec; they enter the embedding as oracle
parameters: a detector is a function from an image to either an exception
message or the list of resolved class-name strings
(`model.names[class_id]` for each detection), and decode/encode outcomes
are inputs to the handlers.
-/

namespace StrawbyDetect

/-- An image/frame. Annotation (box/label drawing, app.py lines 105-106,
180-181, 283-284) is delegated to external annotators; we track only
whether the annotated copy of a given frame was produced. -/
structure Img where
  id : Nat
  annotated : Bool
deriving DecidableEq, Repr

/-- Embedding of `annotated_frame = box_annotator.annotate(...)` etc.: the
annotated copy of a frame. -/
def annotateImg (i : Img) : Img := { i with annotated := true }

/-- app.py line 31: the fixed class-name list. -/
def class_names : List String :=
  ["Anthracnose Fruit Rot", "Gray Mold", "Powdery Mildew Fruit",
   "Powdery Mildew Leaf", "Ripe", "Unripe", "Rotten"]

/-- A counter table: the Python dicts `{name: count}` keyed by
`class_names`, in insertion order. -/
abbrev Table := List (String × Nat)

/-- Embedding of `{name: 0 for name in class_names}` (app.py lines 46-47,
93, 121, 187, 231, 271, 334, 336, 349). -/
def zeroTable : Table := class_names.map (fun n => (n, 0))

/-- Embedding of `d[name] += 1` on a dict whose keys are `class_names`. -/
def incr (t : Table) (name : String) : Table :=
  t.map (fun p => if p.1 = name then (p.1, p.2 + 1) else p)

/-- Embedding of `sum(d.values())` (app.py lines 118, 194, 304, 312). -/
def totalOf (t : Table) : Nat := (t.map Prod.snd).sum

/-- Embedding of `{name: (count / total * 100) if total > 0 else 0 for
name, count in d.items()}` (app.py lines 119, 195, 305, 313), in exact
rational arithmetic. -/
def percentages (t : Table) : List (String × ℚ) :=
  let total := totalOf t
  t.map (fun p => (p.1, if 0 < total then (p.2 : ℚ) / (total : ℚ) * 100 else 0))

/-- Embedding of `{name: 0 for name in class_names}` as a percentage dict
(app.py line 48). -/
def zeroPct : List (String × ℚ) := class_names.map (fun n => (n, 0))

/-- What the module-level name `camera_counts` is bound to.  Line 47
binds it to a dict, but the `def camera_counts():` at line 302 (the
`/camera_counts` view) rebinds the same module-level name to the view
function.  `stop_camera` / `stop_stream` rebind it to a fresh dict. -/
inductive CameraBinding
  | viewFn
  | table (t : Table)
deriving DecidableEq, Repr

/-- The module-level mutable state of app.py (lines 44-52) plus the two
directories the handlers write into: `uploads` models the file names
under `static/uploads` (UPLOAD_FOLDER), `staticFiles` those under
`static` (STATIC_FOLDER). -/
structure AppState where
  frame : Option Img
  videoPath : Option String
  cumulative : Table
  cameraB : CameraBinding
  finalPct : List (String × ℚ)
  complete : Bool
  uploads : List String
  staticFiles : List String
deriving DecidableEq, Repr

/-- The state right after module initialization: `frame = None`,
`video_path = None`, both counter dicts zeroed, `final_percentages`
zeroed, `video_processing_complete = False`, empty scratch directory —
and the name `camera_counts` bound to the view function, because the
`def` at line 302 executed after the dict assignment at line 47. -/
def initState : AppState :=
  { frame := none
    videoPath := none
    cumulative := zeroTable
    cameraB := CameraBinding.viewFn
    finalPct := zeroPct
    complete := false
    uploads := []
    staticFiles := [] }

/-- The detector adapter: given a decoded image, either an exception
message (model prediction raised) or the list of resolved class names,
one per detection (`model.names[class_id]` applied to
`detections.class_id`). -/
abbrev Detector := Img → Except String (List String)

/-- Embedding of `model(img)` when the module-level `model` may be `None` (lines
20, 30): calling `None` raises a `TypeError`, which lands in the same
`except` clause as a genuine prediction failure. -/
def runModel (m : Option Detector) (img : Img) : Except String (List String) :=
  match m with
  | none => Except.error "TypeError: NoneType object is not callable"
  | some f => f img

/-- Embedding of `os.path.join(app.config[UPLOAD_FOLDER], filename)`. -/
def uploadPath (filename : String) : String := "static/uploads/" ++ filename

/-- Embedding of `file.save(path)`: a file at the same path is overwritten,
so the directory listing gains at most one entry. -/
def addFile (l : List String) (f : String) : List String :=
  if f ∈ l then l else f :: l

/-- Line 160 / 223 error message. -/
def modelNotLoadedMsg : String :=
  "Model not loaded. Please ensure best.pt is in the current directory and compatible with the latest Ultralytics YOLOv8."

/-- Embedding of the line 162 check on image filename extensions
(Python `str.endswith` on the character sequence). -/
def hasImageExt (f : String) : Bool :=
  ".jpg".data.isSuffixOf f.data || ".jpeg".data.isSuffixOf f.data ||
  ".png".data.isSuffixOf f.data

/-- Embedding of the line 225 check on video filename extensions. -/
def hasVideoExt (f : String) : Bool :=
  ".mp4".data.isSuffixOf f.data || ".avi".data.isSuffixOf f.data

/-- The per-request facts of an `/upload_image` request: whether the
`image` part is present, its filename, and whether `cv2.imread` can load
the saved file (`none` models `imread` returning `None`). -/
structure ImgUpload where
  filePresent : Bool
  filename : String
  loadable : Option Img
deriving DecidableEq, Repr

/-- Response of the `/upload_image` handler. -/
inductive ImgResp
  | error (msg : String)
  | ok (imageUrl : String) (pct : List (String × ℚ))
deriving DecidableEq, Repr

/-- Lines 187-192: build `class_counts` from the resolved detection
names; names outside `class_counts` (whose keys are `class_names`) are
skipped by the `if class_name in class_counts` guard. -/
def countNames (names : List String) : Table :=
  (names.filter (fun n => class_names.contains n)).foldl incr zeroTable

/-- The `upload_image` handler, app.py lines 150-210. -/
def uploadImage (m : Option Detector) (st : AppState) (u : ImgUpload) :
    AppState × ImgResp :=
  if u.filePresent = false then (st, ImgResp.error "No image uploaded")
  else if u.filename = "" then (st, ImgResp.error "No image selected")
  else if m.isNone then (st, ImgResp.error modelNotLoadedMsg)
  else if hasImageExt u.filename then
    let filepath := uploadPath u.filename
    let st1 : AppState := { st with uploads := addFile st.uploads filepath }
    match u.loadable with
    | none =>
      ({ st1 with uploads := st1.uploads.erase filepath },
       ImgResp.error "Error: Could not load image")
    | some img =>
      match runModel m img with
      | Except.error e =>
        ({ st1 with uploads := st1.uploads.erase filepath },
         ImgResp.error ("Model prediction failed: " ++ e))
      | Except.ok names =>
        let outName := "annotated_" ++ u.filename
        let st2 : AppState := { st1 with staticFiles := addFile st1.staticFiles outName }
        ({ st2 with uploads := st2.uploads.erase filepath },
         ImgResp.ok ("/static/" ++ outName) (percentages (countNames names)))
  else (st, ImgResp.error "Unsupported image format")

/-- The per-request facts of an `/upload_video` request. -/
structure VidUpload where
  filePresent : Bool
  filename : String
deriving DecidableEq, Repr

/-- Response of the `/upload_video`, `/stop_stream` and `/stop_camera`
handlers. -/
inductive VidResp
  | error (msg : String)
  | ok (msg : String)
deriving DecidableEq, Repr

/-- The `upload_video` handler, app.py lines 212-239.  Note: the handler
declares `global video_path, video_processing_complete` but NOT
`cumulative_counts`, so the assignment
`cumulative_counts = {name: 0 for name in class_names}` at line 231
creates a function-local variable; the module-level table is left
unchanged.  The embedding reproduces that: `cumulative` is not touched. -/
def uploadVideo (m : Option Detector) (st : AppState) (u : VidUpload) :
    AppState × VidResp :=
  if u.filePresent = false then (st, VidResp.error "No video uploaded")
  else if u.filename = "" then (st, VidResp.error "No video selected")
  else if m.isNone then (st, VidResp.error modelNotLoadedMsg)
  else if hasVideoExt u.filename then
    let filename := uploadPath u.filename
    ({ st with uploads := addFile st.uploads filename
               videoPath := some filename
               complete := false },
     VidResp.ok "Video uploaded, streaming started")
  else (st, VidResp.error "Unsupported video format")

/-- The per-request facts of a `/camera_feed` request body:
`noImage` = the JSON has no `image` key (line 250); `badBase64` = the
split/b64decode/frombuffer pipeline raises (caught by the outer
`except` at line 297); `undecodable` = `cv2.imdecode` returns `None`
(line 258); `image img` = the body decodes to `img`. -/
inductive CamInput
  | noImage
  | badBase64
  | undecodable
  | image (img : Img)
deriving DecidableEq, Repr

/-- Response of the `/camera_feed` handler: a JSON error or the JPEG bytes of the
annotated frame. -/
inductive CamResp
  | error (msg : String)
  | jpeg (img : Img)
deriving DecidableEq, Repr

/-- The `camera_feed` handler, app.py lines 245-299.  There is no
`if not model` guard here: with `model = None`, line 264 raises a
`TypeError` caught by the inner `except` (line 266), producing a
"Model prediction failed" error.  The counting loop (lines 272-278)
subscripts the module-level `camera_counts`; while that name is still
bound to the view function (`CameraBinding.viewFn`), the first
in-vocabulary detection raises a `TypeError` caught by the outer
`except` (line 297) before any state is mutated.  `encodeOk` models
whether `cv2.imencode` succeeds at line 290. -/
def cameraFeed (m : Option Detector) (st : AppState) (inp : CamInput)
    (encodeOk : Bool) : AppState × CamResp :=
  match inp with
  | CamInput.noImage => (st, CamResp.error "No image data provided")
  | CamInput.badBase64 =>
      (st, CamResp.error "Error processing camera frame: invalid base64")
  | CamInput.undecodable => (st, CamResp.error "Failed to decode camera frame")
  | CamInput.image img =>
    match runModel m img with
    | Except.error e => (st, CamResp.error ("Model prediction failed: " ++ e))
    | Except.ok names =>
      let inVocab := names.filter (fun n => class_names.contains n)
      match st.cameraB with
      | CameraBinding.viewFn =>
        if inVocab.isEmpty then
          let st1 := { st with frame := some (annotateImg img) }
          if encodeOk then (st1, CamResp.jpeg (annotateImg img))
          else (st1, CamResp.error "Failed to encode camera frame")
        else
          (st, CamResp.error "Error processing camera frame: TypeError")
      | CameraBinding.table t =>
        let st1 := { st with cameraB := CameraBinding.table (inVocab.foldl incr t)
                             frame := some (annotateImg img) }
        if encodeOk then (st1, CamResp.jpeg (annotateImg img))
        else (st1, CamResp.error "Failed to encode camera frame")

/-- The `/camera_counts` view, app.py lines 301-307.  Inside the view, the
name `camera_counts` refers to the module-level binding; while that is
the view function itself, `camera_counts.values()` raises an
`AttributeError` (surfaced by Flask as a 500, not a JSON body).  Once
the name holds a dict, the view returns its percentage snapshot. -/
def cameraCountsView (st : AppState) : Except String (List (String × ℚ)) :=
  match st.cameraB with
  | CameraBinding.viewFn =>
      Except.error "AttributeError: function object has no attribute values"
  | CameraBinding.table t => Except.ok (percentages t)

/-- The `/detection_counts` view, app.py lines 309-315. -/
def detectionCounts (st : AppState) : List (String × ℚ) :=
  percentages st.cumulative

/-- The `/final_counts` view, app.py lines 317-324. -/
def finalCounts (st : AppState) : Bool × List (String × ℚ) :=
  (st.complete, st.finalPct)

/-- The `stop_stream` handler, app.py lines 326-342: delete the pending
source file if it exists, clear the work-queue slot, rebind both counter
tables to fresh zero dicts, clear the completion flag.
`final_percentages` is NOT touched. -/
def stopStream (st : AppState) : AppState × VidResp :=
  let uploads1 :=
    match st.videoPath with
    | some p => st.uploads.erase p
    | none => st.uploads
  ({ st with videoPath := none
             uploads := uploads1
             cumulative := zeroTable
             cameraB := CameraBinding.table zeroTable
             complete := false },
   VidResp.ok "Stream stopped")

/-- The `stop_camera` handler, app.py lines 344-354. -/
def stopCamera (st : AppState) : AppState × VidResp :=
  ({ st with cameraB := CameraBinding.table zeroTable },
   VidResp.ok "Camera stopped")

/-- One iteration of the per-frame body of `process_video`
(app.py lines 75-111): run detection on the frame; on a prediction
exception, log and `continue` (no counts, no publish); otherwise add
each in-vocabulary resolved name to `cumulative_counts` under
`counts_lock` and publish the annotated frame into the shared slot
under `lock`. -/
def processFrame (m : Option Detector) (st : AppState) (img : Img) : AppState :=
  match runModel m img with
  | Except.error _ => st
  | Except.ok names =>
    let inVocab := names.filter (fun n => class_names.contains n)
    { st with cumulative := inVocab.foldl incr st.cumulative
              frame := some (annotateImg img) }

/-- The inner read loop of `process_video` over the decoded frame
sequence of the video. -/
def processFrames (m : Option Detector) (st : AppState) (frames : List Img) :
    AppState :=
  frames.foldl (processFrame m) st

/-- End-of-stream epilogue of `process_video` (app.py lines 113-125):
freeze the percentage distribution of the final counts into
`final_percentages`, rebind `cumulative_counts` to a fresh zero dict,
`os.remove(video_path)`, clear the work-queue slot, set the completion
flag.  If `video_path` is `None` (a concurrent `stop_stream` cleared
it), `os.remove(None)` raises and the worker thread dies with the state
unchanged: modelled as `none`. -/
def finalizeVideo (st : AppState) : Option AppState :=
  match st.videoPath with
  | none => none
  | some p =>
    some { st with finalPct := percentages st.cumulative
                   cumulative := zeroTable
                   uploads := st.uploads.erase p
                   videoPath := none
                   complete := true }


/-- Whether an `/upload_image` response is an error payload. -/
def ImgResp.isError : ImgResp → Bool
  | ImgResp.error _ => true
  | ImgResp.ok _ _ => false

/-- Whether a `/upload_video`-style response is an error payload. -/
def VidResp.isError : VidResp → Bool
  | VidResp.error _ => true
  | VidResp.ok _ => false

/-- Whether a `/camera_feed` response is an error payload. -/
def CamResp.isError : CamResp → Bool
  | CamResp.error _ => true
  | CamResp.jpeg _ => false

/-- Key list of a counter table (the dict's key view). -/
def keysOf (t : Table) : List String := t.map Prod.fst

/-- Count stored for label `n` in table `t` (sum over the — in practice
unique — entries whose key is `n`). -/
def countOf (t : Table) (n : String) : Nat :=
  ((t.filter (fun p => p.1 = n)).map Prod.snd).sum

/-- One state-mutating or read-only operation of the app, with its
per-request payload. -/
inductive Op
  | upImage (u : ImgUpload)
  | upVideo (u : VidUpload)
  | camFrame (inp : CamInput) (encodeOk : Bool)
  | procFrame (img : Img)
  | finalize
  | stopStr
  | stopCam
  | pollDetection
  | pollCamera
  | pollFinal
deriving DecidableEq

/-- The effect of one operation on the module-level state.  The polling
views read but do not write.  A `finalize` with an empty work-queue slot
crashes the worker thread without mutating module state, so the state is
kept. -/
def step (m : Option Detector) (st : AppState) : Op → AppState
  | Op.upImage u => (uploadImage m st u).1
  | Op.upVideo u => (uploadVideo m st u).1
  | Op.camFrame inp e => (cameraFeed m st inp e).1
  | Op.procFrame img => processFrame m st img
  | Op.finalize => (finalizeVideo st).getD st
  | Op.stopStr => (stopStream st).1
  | Op.stopCam => (stopCamera st).1
  | Op.pollDetection => st
  | Op.pollCamera => st
  | Op.pollFinal => st

/-- Operations after which the code zeroes the video counter table. -/
def vidResets (op : Op) : Prop := op = Op.finalize ∨ op = Op.stopStr

/-- Operations after which the code zeroes the camera counter table. -/
def camResets (op : Op) : Prop := op = Op.stopStr ∨ op = Op.stopCam

/-- When a camera counter dict exists (the name is not shadowed by the
view function), its key list is exactly `class_names`. -/
def camKeysOK (st : AppState) : Prop :=
  match st.cameraB with
  | CameraBinding.viewFn => True
  | CameraBinding.table t => keysOf t = class_names

/-- Per-label evolution of the camera counter dict across one operation:
when a dict exists before and after, the count does not decrease unless
the operation is a camera reset, which zeroes it. -/
def camCountStep (st st2 : AppState) (op : Op) (n : String) : Prop :=
  match st.cameraB, st2.cameraB with
  | CameraBinding.table t, CameraBinding.table t2 =>
      countOf t n ≤ countOf t2 n ∨ (camResets op ∧ countOf t2 n = 0)
  | _, _ => True

/-- A detector that reports one detection resolving to the in-vocabulary
name Ripe on every image. -/
def ripeDetector : Detector := fun _ => Except.ok ["Ripe"]

/-- A detector that reports no detections. -/
def emptyDetector : Detector := fun _ => Except.ok []

/-- A detector whose prediction raises on every image. -/
def failDetector : Detector := fun _ => Except.error "CUDA out of memory"

/-- A concrete raw frame. -/
def img0 : Img := { id := 0, annotated := false }

/-- C1: after module initialization the name `camera_counts` is bound to
the `/camera_counts` view function, not the counter dict; while that
binding is in place, a `camera_feed` request with at least one
in-vocabulary detection hits the `except` branch of the handler when it
executes the increment and returns an error response instead of the
annotated image, and the `/camera_counts` view raises when it evaluates
the `values()` call on the function. -/
theorem c1_camera_counts_shadowed (m : Option Detector) (st : AppState)
    (img : Img) (names : List String) (encodeOk : Bool)
    (hB : st.cameraB = CameraBinding.viewFn)
    (hdet : runModel m img = Except.ok names)
    (hvocab : names.filter (fun n => class_names.contains n) ≠ []) :
    initState.cameraB = CameraBinding.viewFn ∧
    cameraFeed m st (CamInput.image img) encodeOk =
      (st, CamResp.error "Error processing camera frame: TypeError") ∧
    cameraCountsView st =
      Except.error "AttributeError: function object has no attribute values" := by
  refine ⟨rfl, ?_, ?_⟩
  · simp only [cameraFeed, hdet, hB]
    rw [if_neg]
    simp only [List.isEmpty_iff]
    exact hvocab
  · simp [cameraCountsView, hB]

/-- Witness for C1 at a concrete state and detector. -/
theorem c1_camera_counts_shadowed_witness :
    initState.cameraB = CameraBinding.viewFn ∧
    cameraFeed (some ripeDetector) initState (CamInput.image img0) true =
      (initState, CamResp.error "Error processing camera frame: TypeError") ∧
    cameraCountsView initState =
      Except.error "AttributeError: function object has no attribute values" :=
  c1_camera_counts_shadowed (some ripeDetector) initState img0 ["Ripe"] true
    rfl rfl (by decide)

/-- C2 (code bug evidence): `upload_video`, on a successful upload of a
supported file, stores the file, sets the work-queue slot and clears the
completion flag — but it does NOT reset the module-level
`cumulative_counts`: the handler lacks a `global cumulative_counts`
declaration, so line 231 binds a function-local name and the module
table keeps its old, non-zero contents. -/
theorem c2_upload_video_reset_is_noop :
    (uploadVideo (some ripeDetector)
        { initState with cumulative := incr zeroTable "Ripe" }
        { filePresent := true, filename := "v.mp4" }).2 =
      VidResp.ok "Video uploaded, streaming started" ∧
    (uploadVideo (some ripeDetector)
        { initState with cumulative := incr zeroTable "Ripe" }
        { filePresent := true, filename := "v.mp4" }).1.videoPath =
      some "static/uploads/v.mp4" ∧
    (uploadVideo (some ripeDetector)
        { initState with cumulative := incr zeroTable "Ripe" }
        { filePresent := true, filename := "v.mp4" }).1.uploads =
      ["static/uploads/v.mp4"] ∧
    (uploadVideo (some ripeDetector)
        { initState with cumulative := incr zeroTable "Ripe" }
        { filePresent := true, filename := "v.mp4" }).1.complete = false ∧
    (uploadVideo (some ripeDetector)
        { initState with cumulative := incr zeroTable "Ripe" }
        { filePresent := true, filename := "v.mp4" }).1.cumulative =
      incr zeroTable "Ripe" ∧
    incr zeroTable "Ripe" ≠ zeroTable := by decide

/-- C7: a camera-feed request whose body is malformed (raising base64
pipeline, or bytes `cv2.imdecode` rejects) returns a decode error and
leaves the whole module state — in particular the camera counter
binding and the shared frame slot — untouched. -/
theorem c7_malformed_camera_frame (m : Option Detector) (st : AppState)
    (encodeOk : Bool) (inp : CamInput)
    (h : inp = CamInput.badBase64 ∨ inp = CamInput.undecodable) :
    (cameraFeed m st inp encodeOk).1 = st ∧
    (cameraFeed m st inp encodeOk).1.cameraB = st.cameraB ∧
    (cameraFeed m st inp encodeOk).1.frame = st.frame ∧
    (cameraFeed m st inp encodeOk).2.isError = true := by
  rcases h with h | h <;> subst h <;> exact ⟨rfl, rfl, rfl, rfl⟩

/-- Witness for C7 at a concrete malformed request. -/
theorem c7_malformed_camera_frame_witness :
    (cameraFeed (some ripeDetector) initState CamInput.badBase64 true).1 = initState ∧
    (cameraFeed (some ripeDetector) initState CamInput.badBase64 true).1.cameraB =
      initState.cameraB ∧
    (cameraFeed (some ripeDetector) initState CamInput.badBase64 true).1.frame =
      initState.frame ∧
    (cameraFeed (some ripeDetector) initState CamInput.badBase64 true).2.isError = true :=
  c7_malformed_camera_frame (some ripeDetector) initState true CamInput.badBase64
    (Or.inl rfl)

/-- C9: when the detector raises on a frame of the video, the ingest
worker logs and skips it — the state (video counter table and shared
frame slot included) is unchanged — and processing of the remaining
frames continues as if the failing frame were absent. -/
theorem c9_failed_frame_skipped (m : Option Detector) (st : AppState)
    (img : Img) (rest : List Img) (e : String)
    (h : runModel m img = Except.error e) :
    processFrame m st img = st ∧
    (processFrame m st img).cumulative = st.cumulative ∧
    (processFrame m st img).frame = st.frame ∧
    processFrames m st (img :: rest) = processFrames m st rest := by
  have h1 : processFrame m st img = st := by simp [processFrame, h]
  exact ⟨h1, by rw [h1], by rw [h1], by simp [processFrames, h1]⟩

/-- Witness for C9: a detector that raises on every frame. -/
theorem c9_failed_frame_skipped_witness :
    processFrame (some failDetector) initState img0 = initState ∧
    (processFrame (some failDetector) initState img0).cumulative =
      initState.cumulative ∧
    (processFrame (some failDetector) initState img0).frame = initState.frame ∧
    processFrames (some failDetector) initState (img0 :: [⟨1, false⟩]) =
      processFrames (some failDetector) initState [⟨1, false⟩] :=
  c9_failed_frame_skipped (some failDetector) initState img0 [⟨1, false⟩]
    "CUDA out of memory" rfl

/-- Counterexample for C4: with `model = None`, the camera-frame handler
does not fail immediately with the model-unavailable error.  It first
runs the body-decoding pipeline (a malformed body still yields a decode
error, not a model error), and on a well-formed image it reaches the
detector call at line 264, whose `TypeError` is reported as a
"Model prediction failed" error — a different payload than the
model-unavailable message the other two handlers return. -/
theorem c4_camera_feed_no_model_guard :
    cameraFeed none initState (CamInput.image img0) true =
      (initState,
       CamResp.error
         "Model prediction failed: TypeError: NoneType object is not callable") ∧
    CamResp.error
        "Model prediction failed: TypeError: NoneType object is not callable" ≠
      CamResp.error modelNotLoadedMsg ∧
    cameraFeed none initState CamInput.badBase64 true =
      (initState, CamResp.error "Error processing camera frame: invalid base64") := by
  refine ⟨rfl, by decide, rfl⟩

/-- C4 as amended: when the detector failed to initialize (`model` is
`None`), `upload_image` and `upload_video` fail immediately with the
model-unavailable error and mutate nothing; the camera-frame handler has
no such guard — it proceeds, and on a well-formed image the `None` call
raises inside the prediction `try`, so the request fails with a
"Model prediction failed" error, also without mutating state or running
any inference. -/
theorem c4_model_unavailable_amended (st : AppState) (ui : ImgUpload)
    (uv : VidUpload) (img : Img) (encodeOk : Bool)
    (hup : ui.filePresent = true) (hn : ui.filename ≠ "")
    (hvp : uv.filePresent = true) (hvn : uv.filename ≠ "") :
    uploadImage none st ui = (st, ImgResp.error modelNotLoadedMsg) ∧
    uploadVideo none st uv = (st, VidResp.error modelNotLoadedMsg) ∧
    cameraFeed none st (CamInput.image img) encodeOk =
      (st,
       CamResp.error
         "Model prediction failed: TypeError: NoneType object is not callable") := by
  refine ⟨?_, ?_, rfl⟩
  · simp [uploadImage, hup, hn]
  · simp [uploadVideo, hvp, hvn]

/-- Witness for the amended C4 at a concrete request. -/
theorem c4_model_unavailable_amended_witness :
    uploadImage none initState
        { filePresent := true, filename := "a.jpg", loadable := some img0 } =
      (initState, ImgResp.error modelNotLoadedMsg) ∧
    uploadVideo none initState { filePresent := true, filename := "v.mp4" } =
      (initState, VidResp.error modelNotLoadedMsg) ∧
    cameraFeed none initState (CamInput.image img0) true =
      (initState,
       CamResp.error
         "Model prediction failed: TypeError: NoneType object is not callable") :=
  c4_model_unavailable_amended initState
    { filePresent := true, filename := "a.jpg", loadable := some img0 }
    { filePresent := true, filename := "v.mp4" } img0 true
    rfl (by decide) rfl (by decide)

/-- C6: when the ingest worker reaches end-of-stream with the work-queue
slot holding path `p`, it stores the percentage distribution of the
final counts as the frozen snapshot, zeroes the live video counter
table, deletes the source file, clears the slot, and sets the
completion flag; `final_counts` polled on the resulting state returns
the completion flag `true` together with those percentages. -/
theorem c6_end_of_stream (st st2 : AppState) (p : String)
    (hp : st.videoPath = some p) (hf : finalizeVideo st = some st2) :
    st2.finalPct = percentages st.cumulative ∧
    st2.cumulative = zeroTable ∧
    st2.uploads = st.uploads.erase p ∧
    st2.videoPath = none ∧
    st2.complete = true ∧
    finalCounts st2 = (true, percentages st.cumulative) := by
  simp only [finalizeVideo, hp, Option.some.injEq] at hf
  subst hf
  exact ⟨rfl, rfl, rfl, rfl, rfl, rfl⟩

/-- A concrete mid-processing state: one video uploaded and one frame
with a Ripe detection already processed. -/
def c6_st : AppState :=
  processFrame (some ripeDetector)
    ((uploadVideo (some ripeDetector) initState
        { filePresent := true, filename := "a.mp4" }).1)
    img0

/-- The state the worker reaches from `c6_st` at end-of-stream. -/
def c6_st2 : AppState := (finalizeVideo c6_st).getD initState

/-- Witness for C6 at the concrete mid-processing state. -/
theorem c6_end_of_stream_witness :
    c6_st2.finalPct = percentages c6_st.cumulative ∧
    c6_st2.cumulative = zeroTable ∧
    c6_st2.uploads = c6_st.uploads.erase "static/uploads/a.mp4" ∧
    c6_st2.videoPath = none ∧
    c6_st2.complete = true ∧
    finalCounts c6_st2 = (true, percentages c6_st.cumulative) :=
  c6_end_of_stream c6_st c6_st2 "static/uploads/a.mp4" (by decide) rfl

/-- C8: an upload request whose filename extension is outside the
accepted set is answered with an error payload and mutates nothing: the
whole module state — counter tables, work-queue slot, and the scratch
upload directory — is returned unchanged, for both the image and the
video endpoint. -/
theorem c8_unsupported_extension (m : Option Detector) (st : AppState)
    (ui : ImgUpload) (uv : VidUpload)
    (hi : hasImageExt ui.filename = false)
    (hv : hasVideoExt uv.filename = false) :
    (uploadImage m st ui).1 = st ∧
    (uploadImage m st ui).2.isError = true ∧
    (uploadVideo m st uv).1 = st ∧
    (uploadVideo m st uv).2.isError = true := by
  constructor
  · unfold uploadImage
    split
    · rfl
    · split
      · rfl
      · split
        · rfl
        · rw [if_neg (by simp [hi])]
  constructor
  · unfold uploadImage
    split
    · rfl
    · split
      · rfl
      · split
        · rfl
        · rw [if_neg (by simp [hi])]
          rfl
  constructor
  · unfold uploadVideo
    split
    · rfl
    · split
      · rfl
      · split
        · rfl
        · rw [if_neg (by simp [hv])]
  · unfold uploadVideo
    split
    · rfl
    · split
      · rfl
      · split
        · rfl
        · rw [if_neg (by simp [hv])]
          rfl

/-- Witness for C8 at a concrete unsupported filename. -/
theorem c8_unsupported_extension_witness :
    (uploadImage (some ripeDetector) initState
        { filePresent := true, filename := "evil.txt", loadable := some img0 }).1 =
      initState ∧
    (uploadImage (some ripeDetector) initState
        { filePresent := true, filename := "evil.txt", loadable := some img0 }).2.isError =
      true ∧
    (uploadVideo (some ripeDetector) initState
        { filePresent := true, filename := "evil.txt" }).1 = initState ∧
    (uploadVideo (some ripeDetector) initState
        { filePresent := true, filename := "evil.txt" }).2.isError = true :=
  c8_unsupported_extension (some ripeDetector) initState
    { filePresent := true, filename := "evil.txt", loadable := some img0 }
    { filePresent := true, filename := "evil.txt" } (by decide) (by decide)

/-- Summing the per-entry expression of the percentage dict gives the
table total scaled the same way. -/
theorem sum_div_mul (t : Table) (T : ℚ) :
    (t.map (fun p => (p.2 : ℚ) / T * 100)).sum = ((totalOf t : ℚ)) / T * 100 := by
  induction t with
  | nil => simp [totalOf]
  | cons a l ih =>
      simp only [List.map_cons, List.sum_cons, ih, totalOf, Nat.cast_add]
      push_cast
      ring

/-- The scenario behind C3: a first video is uploaded. -/
def c3_stA : AppState :=
  processFrame (some ripeDetector)
    ((uploadVideo (some ripeDetector) initState
        { filePresent := true, filename := "a.mp4" }).1)
    img0

/-- The first video finishes: its percentages are frozen. -/
def c3_stB : AppState := (finalizeVideo c3_stA).getD initState

/-- A second video is uploaded and is mid-processing. -/
def c3_stC : AppState :=
  (uploadVideo (some ripeDetector) c3_stB
      { filePresent := true, filename := "b.mp4" }).1

/-- The stream is stopped while the second video is mid-processing. -/
def c3_stD : AppState := (stopStream c3_stC).1

/-- Counterexample for C3: `stop_stream` never resets
`final_percentages`, so after stopping a stream the next `final_counts`
poll reports `complete: false` but with the percentages frozen by the
previously completed video — not all zero.  Here the first video ended
with one Ripe detection, so the poll after `stop_stream` serves the
Ripe-100 distribution. -/
theorem c3_counterexample :
    (finalizeVideo c3_stA).isSome = true ∧
    c3_stC.videoPath = some "static/uploads/b.mp4" ∧
    c3_stD.videoPath = none ∧
    c3_stD.cumulative = zeroTable ∧
    c3_stD.cameraB = CameraBinding.table zeroTable ∧
    (finalCounts c3_stD).1 = false ∧
    (finalCounts c3_stD).2 = percentages (incr zeroTable "Ripe") ∧
    percentages (incr zeroTable "Ripe") ≠ zeroPct := by
  refine ⟨rfl, by decide, rfl, by decide, by decide, rfl, rfl, ?_⟩
  simp +decide [percentages, incr, zeroTable, zeroPct, class_names, totalOf]

/-- C3 as amended: `stop_stream` clears the work-queue slot, deletes the
pending source file, zeroes both counter tables, clears the completion
flag and acknowledges; the next `final_counts` poll reports
`complete: false` — but with the previously frozen `final_percentages`
(all zero only if no video has completed since startup), because
`stop_stream` does not touch `final_percentages`. -/
theorem c3_stop_stream_amended (st : AppState) (p : String)
    (hnd : st.uploads.Nodup) (hp : st.videoPath = some p) :
    (stopStream st).1.videoPath = none ∧
    p ∉ (stopStream st).1.uploads ∧
    (stopStream st).1.cumulative = zeroTable ∧
    (stopStream st).1.cameraB = CameraBinding.table zeroTable ∧
    (stopStream st).1.complete = false ∧
    finalCounts (stopStream st).1 = (false, st.finalPct) ∧
    (stopStream st).2 = VidResp.ok "Stream stopped" := by
  refine ⟨rfl, ?_, rfl, rfl, rfl, rfl, rfl⟩
  have hu : (stopStream st).1.uploads = st.uploads.erase p := by
    simp [stopStream, hp]
  rw [hu]
  exact hnd.not_mem_erase

/-- Witness for the amended C3 at the concrete mid-processing state of
the counterexample scenario. -/
theorem c3_stop_stream_amended_witness :
    (stopStream c3_stC).1.videoPath = none ∧
    "static/uploads/b.mp4" ∉ (stopStream c3_stC).1.uploads ∧
    (stopStream c3_stC).1.cumulative = zeroTable ∧
    (stopStream c3_stC).1.cameraB = CameraBinding.table zeroTable ∧
    (stopStream c3_stC).1.complete = false ∧
    finalCounts (stopStream c3_stC).1 = (false, c3_stC.finalPct) ∧
    (stopStream c3_stC).2 = VidResp.ok "Stream stopped" :=
  c3_stop_stream_amended c3_stC "static/uploads/b.mp4" (by decide) (by decide)

/-- C5: both percentage snapshots (the `/detection_counts` one over the
video table and the `/camera_counts` one over a camera dict) are the
`percentages` map; for any table with positive total each label gets
count over total times 100 and the values sum to exactly 100 (float
rounding aside), and for any table with zero total every label gets 0. -/
theorem c5_snapshot_percentages (st : AppState) (t t0 : Table)
    (hcam : st.cameraB = CameraBinding.table t)
    (hpos : 0 < totalOf t) (hz : totalOf t0 = 0) :
    detectionCounts st = percentages st.cumulative ∧
    cameraCountsView st = Except.ok (percentages t) ∧
    percentages t = t.map (fun p => (p.1, (p.2 : ℚ) / ((totalOf t : ℚ)) * 100)) ∧
    ((percentages t).map Prod.snd).sum = 100 ∧
    percentages t0 = t0.map (fun p => (p.1, (0 : ℚ))) := by
  have hT : ((totalOf t : ℚ)) ≠ 0 := by
    exact_mod_cast Nat.pos_iff_ne_zero.mp hpos
  have h1 : percentages t =
      t.map (fun p => (p.1, (p.2 : ℚ) / ((totalOf t : ℚ)) * 100)) := by
    simp [percentages, hpos]
  refine ⟨rfl, ?_, h1, ?_, ?_⟩
  · simp [cameraCountsView, hcam]
  · rw [h1, List.map_map]
    have h2 :
        (Prod.snd ∘ fun p : String × Nat =>
            (p.1, (p.2 : ℚ) / ((totalOf t : ℚ)) * 100)) =
          fun p : String × Nat => (p.2 : ℚ) / ((totalOf t : ℚ)) * 100 := rfl
    rw [h2, sum_div_mul, div_self hT, one_mul]
  · simp [percentages, hz]

/-- A camera counter table with one Ripe count. -/
def c5_t : Table := incr zeroTable "Ripe"

/-- A state whose camera binding holds that table. -/
def c5_st : AppState := { initState with cameraB := CameraBinding.table c5_t }

/-- Witness for C5 at a concrete state and tables. -/
theorem c5_snapshot_percentages_witness :
    detectionCounts c5_st = percentages c5_st.cumulative ∧
    cameraCountsView c5_st = Except.ok (percentages c5_t) ∧
    percentages c5_t =
      c5_t.map (fun p => (p.1, (p.2 : ℚ) / ((totalOf c5_t : ℚ)) * 100)) ∧
    ((percentages c5_t).map Prod.snd).sum = 100 ∧
    percentages zeroTable = zeroTable.map (fun p => (p.1, (0 : ℚ))) :=
  c5_snapshot_percentages c5_st c5_t zeroTable rfl (by decide) (by decide)

/-- Unfolding of the dict increment on a cons cell. -/
theorem incr_cons (a : String × Nat) (l : Table) (m : String) :
    incr (a :: l) m = (if a.1 = m then (a.1, a.2 + 1) else a) :: incr l m := by
  simp [incr]

/-- Unfolding of the per-label count on a cons cell. -/
theorem countOf_cons (a : String × Nat) (l : Table) (n : String) :
    countOf (a :: l) n = (if a.1 = n then a.2 else 0) + countOf l n := by
  by_cases h : a.1 = n <;> simp [countOf, List.filter_cons, h]

/-- Incrementing one label never lowers any per-label count. -/
theorem countOf_le_incr (t : Table) (n m : String) :
    countOf t n ≤ countOf (incr t m) n := by
  induction t with
  | nil => exact Nat.le_refl _
  | cons a l ih =>
      rw [incr_cons, countOf_cons, countOf_cons]
      by_cases h : a.1 = m
      · rw [if_pos h]
        by_cases h2 : a.1 = n <;> simp [h2] <;> omega
      · rw [if_neg h]
        omega

/-- A fold of increments never lowers any per-label count. -/
theorem countOf_le_foldl (l : List String) (t : Table) (n : String) :
    countOf t n ≤ countOf (l.foldl incr t) n := by
  induction l generalizing t with
  | nil => exact Nat.le_refl _
  | cons m l ih =>
      exact Nat.le_trans (countOf_le_incr t n m) (ih (incr t m))

/-- The zero table stores count 0 for every label. -/
theorem countOf_zeroTable (n : String) : countOf zeroTable n = 0 := by
  have h : ∀ l : List String, countOf (l.map (fun s => (s, 0))) n = 0 := by
    intro l
    induction l with
    | nil => rfl
    | cons a l ih =>
        rw [List.map_cons, countOf_cons, ih]
        by_cases h : a = n <;> simp [h]
  exact h class_names

/-- Incrementing one label preserves the dict key list. -/
theorem keysOf_incr (t : Table) (m : String) : keysOf (incr t m) = keysOf t := by
  induction t with
  | nil => rfl
  | cons a l ih =>
      rw [incr_cons]
      by_cases h : a.1 = m <;> simp [keysOf, h] <;>
        simpa [keysOf] using ih

/-- A fold of increments preserves the dict key list. -/
theorem keysOf_foldl (l : List String) (t : Table) :
    keysOf (l.foldl incr t) = keysOf t := by
  induction l generalizing t with
  | nil => rfl
  | cons m l ih => rw [List.foldl_cons, ih, keysOf_incr]

/-- The key list of the zero table is the fixed class-name list. -/
theorem keysOf_zeroTable : keysOf zeroTable = class_names := by decide

/-- States with the same camera binding satisfy `camKeysOK` together. -/
theorem camKeysOK_of_eq (st st2 : AppState) (h : st2.cameraB = st.cameraB)
    (h2 : camKeysOK st) : camKeysOK st2 := by
  unfold camKeysOK at h2 ⊢
  rw [h]
  exact h2

/-- States with the same camera binding take the trivial per-label
step. -/
theorem camCountStep_of_eq (st st2 : AppState) (op : Op) (n : String)
    (h : st2.cameraB = st.cameraB) : camCountStep st st2 op n := by
  unfold camCountStep
  rw [h]
  cases st.cameraB with
  | viewFn => trivial
  | table t => exact Or.inl (Nat.le_refl _)

/-- The image-upload handler writes only into the two directories: the
counter tables (and the camera binding) are untouched. -/
theorem uploadImage_counters (m : Option Detector) (st : AppState)
    (u : ImgUpload) :
    (uploadImage m st u).1.cumulative = st.cumulative ∧
    (uploadImage m st u).1.cameraB = st.cameraB := by
  unfold uploadImage
  repeat' split
  all_goals exact ⟨rfl, rfl⟩

/-- The video-upload handler touches the work-queue slot, the flag and
the scratch directory, but — because the line 231 reset binds a local —
never the counter tables or the camera binding. -/
theorem uploadVideo_counters (m : Option Detector) (st : AppState)
    (u : VidUpload) :
    (uploadVideo m st u).1.cumulative = st.cumulative ∧
    (uploadVideo m st u).1.cameraB = st.cameraB := by
  unfold uploadVideo
  repeat' split
  all_goals exact ⟨rfl, rfl⟩

/-- The camera handler never touches the video counter table. -/
theorem cameraFeed_cumulative (m : Option Detector) (st : AppState)
    (inp : CamInput) (encodeOk : Bool) :
    (cameraFeed m st inp encodeOk).1.cumulative = st.cumulative := by
  cases inp with
  | noImage => rfl
  | badBase64 => rfl
  | undecodable => rfl
  | image img =>
      cases hr : runModel m img with
      | error e => simp [cameraFeed, hr]
      | ok names =>
          cases hb : st.cameraB with
          | viewFn =>
              simp only [cameraFeed, hr, hb]
              repeat' split
              all_goals rfl
          | table t =>
              simp only [cameraFeed, hr, hb]
              repeat' split
              all_goals rfl

/-- The ingest worker frame step never touches the camera binding. -/
theorem processFrame_cameraB (m : Option Detector) (st : AppState)
    (img : Img) :
    (processFrame m st img).cameraB = st.cameraB := by
  unfold processFrame
  repeat' split
  all_goals rfl

/-- Introduction form of `camKeysOK` for a dict binding. -/
theorem camKeysOK_table (st : AppState) (t : Table)
    (hb : st.cameraB = CameraBinding.table t) (hk : keysOf t = class_names) :
    camKeysOK st := by
  unfold camKeysOK
  rw [hb]
  exact hk

/-- Elimination form of `camKeysOK` for a dict binding. -/
theorem camKeysOK_table_elim (st : AppState) (t : Table)
    (hb : st.cameraB = CameraBinding.table t) (h : camKeysOK st) :
    keysOf t = class_names := by
  unfold camKeysOK at h
  rw [hb] at h
  exact h

/-- Introduction form of `camCountStep` for a non-decreasing dict. -/
theorem camCountStep_table (st st2 : AppState) (op : Op) (n : String)
    (t t2 : Table) (hb : st.cameraB = CameraBinding.table t)
    (hb2 : st2.cameraB = CameraBinding.table t2)
    (h : countOf t n ≤ countOf t2 n) : camCountStep st st2 op n := by
  unfold camCountStep
  rw [hb, hb2]
  exact Or.inl h

/-- Introduction form of `camCountStep` for a reset operation. -/
theorem camCountStep_reset (st st2 : AppState) (op : Op) (n : String)
    (hb2 : st2.cameraB = CameraBinding.table zeroTable)
    (hop : camResets op) : camCountStep st st2 op n := by
  unfold camCountStep
  rw [hb2]
  cases st.cameraB with
  | viewFn => trivial
  | table t => exact Or.inr ⟨hop, countOf_zeroTable n⟩

/-- Camera-side invariant of the camera handler: the binding either
stays what it was, or the dict grows by increments of in-vocabulary
labels. -/
theorem cameraFeed_camera_invariant (m : Option Detector) (st : AppState)
    (inp : CamInput) (encodeOk : Bool) (op : Op) (n : String)
    (h2 : camKeysOK st) :
    camKeysOK (cameraFeed m st inp encodeOk).1 ∧
    camCountStep st (cameraFeed m st inp encodeOk).1 op n := by
  cases inp with
  | noImage => exact ⟨h2, camCountStep_of_eq st _ op n rfl⟩
  | badBase64 => exact ⟨h2, camCountStep_of_eq st _ op n rfl⟩
  | undecodable => exact ⟨h2, camCountStep_of_eq st _ op n rfl⟩
  | image img =>
      cases hr : runModel m img with
      | error e =>
          have hq : (cameraFeed m st (CamInput.image img) encodeOk).1 = st := by
            simp [cameraFeed, hr]
          rw [hq]
          exact ⟨h2, camCountStep_of_eq st st op n rfl⟩
      | ok names =>
          cases hb : st.cameraB with
          | viewFn =>
              have hq :
                  (cameraFeed m st (CamInput.image img) encodeOk).1.cameraB =
                    CameraBinding.viewFn := by
                simp only [cameraFeed, hr, hb]
                repeat' split
                all_goals first | rfl | exact hb
              constructor
              · unfold camKeysOK
                rw [hq]
                trivial
              · unfold camCountStep
                rw [hb, hq]
                trivial
          | table t =>
              have hkt : keysOf t = class_names := camKeysOK_table_elim st t hb h2
              have hq :
                  (cameraFeed m st (CamInput.image img) encodeOk).1.cameraB =
                    CameraBinding.table
                      ((names.filter (fun s => class_names.contains s)).foldl incr t) := by
                simp only [cameraFeed, hr, hb]
                repeat' split
                all_goals rfl
              constructor
              · exact camKeysOK_table _ _ hq (by rw [keysOf_foldl]; exact hkt)
              · exact camCountStep_table st _ op n t _ hb hq (countOf_le_foldl _ t n)

/-- The frame step keeps the video dict keys intact. -/
theorem processFrame_keys (m : Option Detector) (st : AppState) (i : Img)
    (hkc : keysOf st.cumulative = class_names) :
    keysOf (processFrame m st i).cumulative = class_names := by
  cases hr : runModel m i with
  | error e => simp [processFrame, hr, hkc]
  | ok names =>
      simp only [processFrame, hr]
      rw [keysOf_foldl]
      exact hkc

/-- The frame step never lowers a per-label video count. -/
theorem processFrame_count_le (m : Option Detector) (st : AppState) (i : Img)
    (n : String) :
    countOf st.cumulative n ≤ countOf (processFrame m st i).cumulative n := by
  cases hr : runModel m i with
  | error e => simp [processFrame, hr]
  | ok names =>
      simp only [processFrame, hr]
      exact countOf_le_foldl _ st.cumulative n

/-- C10: across every operation of the app, the video counter table
keeps the fixed key list; so does any camera counter dict; per-label
video counts never decrease except through the code paths that zero the
table (end-of-stream finalization or stop-stream), per-label camera
counts never decrease except through stop-stream/stop-camera; and a
frame all of whose detections resolve outside the fixed label set
changes no count in either table. -/
theorem c10_counter_invariants (m : Option Detector) (st : AppState)
    (op : Op) (n : String) (img : Img) (names : List String)
    (encodeOk : Bool)
    (hkc : keysOf st.cumulative = class_names)
    (hcam : camKeysOK st)
    (hdet : runModel m img = Except.ok names)
    (hout : names.filter (fun s => class_names.contains s) = []) :
    keysOf (step m st op).cumulative = class_names ∧
    camKeysOK (step m st op) ∧
    (countOf st.cumulative n ≤ countOf (step m st op).cumulative n ∨
      (vidResets op ∧ countOf (step m st op).cumulative n = 0)) ∧
    camCountStep st (step m st op) op n ∧
    (processFrame m st img).cumulative = st.cumulative ∧
    (cameraFeed m st (CamInput.image img) encodeOk).1.cameraB = st.cameraB := by
  have h0 : List.filter (fun s => class_names.contains s) names = [] := hout
  have hpf : (processFrame m st img).cumulative = st.cumulative := by
    simp only [processFrame, hdet, h0, List.foldl_nil]
  have hcf : (cameraFeed m st (CamInput.image img) encodeOk).1.cameraB =
      st.cameraB := by
    cases hb : st.cameraB with
    | viewFn =>
        simp only [cameraFeed, hdet, hb, h0]
        cases encodeOk <;> rfl
    | table t =>
        simp only [cameraFeed, hdet, hb, h0, List.foldl_nil]
        cases encodeOk <;> rfl
  have g1 : keysOf (step m st op).cumulative = class_names := by
    cases op with
    | upImage u =>
        rw [show step m st (Op.upImage u) = (uploadImage m st u).1 from rfl,
          (uploadImage_counters m st u).1]
        exact hkc
    | upVideo u =>
        rw [show step m st (Op.upVideo u) = (uploadVideo m st u).1 from rfl,
          (uploadVideo_counters m st u).1]
        exact hkc
    | camFrame inp e =>
        rw [show step m st (Op.camFrame inp e) = (cameraFeed m st inp e).1 from rfl,
          cameraFeed_cumulative m st inp e]
        exact hkc
    | procFrame i => exact processFrame_keys m st i hkc
    | finalize =>
        cases hv : st.videoPath with
        | none => simp [step, finalizeVideo, hv, hkc]
        | some p => simp [step, finalizeVideo, hv, keysOf_zeroTable]
    | stopStr => exact keysOf_zeroTable
    | stopCam => exact hkc
    | pollDetection => exact hkc
    | pollCamera => exact hkc
    | pollFinal => exact hkc
  have g2 : camKeysOK (step m st op) := by
    cases op with
    | upImage u => exact camKeysOK_of_eq st _ (uploadImage_counters m st u).2 hcam
    | upVideo u => exact camKeysOK_of_eq st _ (uploadVideo_counters m st u).2 hcam
    | camFrame inp e =>
        exact (cameraFeed_camera_invariant m st inp e (Op.camFrame inp e) n hcam).1
    | procFrame i => exact camKeysOK_of_eq st _ (processFrame_cameraB m st i) hcam
    | finalize =>
        cases hv : st.videoPath with
        | none =>
            have hq : step m st Op.finalize = st := by
              simp [step, finalizeVideo, hv]
            rw [hq]
            exact hcam
        | some p =>
            have hq : (step m st Op.finalize).cameraB = st.cameraB := by
              simp [step, finalizeVideo, hv]
            exact camKeysOK_of_eq st _ hq hcam
    | stopStr => exact camKeysOK_table _ zeroTable rfl keysOf_zeroTable
    | stopCam => exact camKeysOK_table _ zeroTable rfl keysOf_zeroTable
    | pollDetection => exact hcam
    | pollCamera => exact hcam
    | pollFinal => exact hcam
  have g3 : countOf st.cumulative n ≤ countOf (step m st op).cumulative n ∨
      (vidResets op ∧ countOf (step m st op).cumulative n = 0) := by
    cases op with
    | upImage u =>
        exact Or.inl (le_of_eq
          (congrArg (fun t => countOf t n) (uploadImage_counters m st u).1).symm)
    | upVideo u =>
        exact Or.inl (le_of_eq
          (congrArg (fun t => countOf t n) (uploadVideo_counters m st u).1).symm)
    | camFrame inp e =>
        exact Or.inl (le_of_eq
          (congrArg (fun t => countOf t n) (cameraFeed_cumulative m st inp e)).symm)
    | procFrame i => exact Or.inl (processFrame_count_le m st i n)
    | finalize =>
        cases hv : st.videoPath with
        | none =>
            have hq : step m st Op.finalize = st := by
              simp [step, finalizeVideo, hv]
            rw [hq]
            exact Or.inl (Nat.le_refl _)
        | some p =>
            have hq : (step m st Op.finalize).cumulative = zeroTable := by
              simp [step, finalizeVideo, hv]
            rw [hq]
            exact Or.inr ⟨Or.inl rfl, countOf_zeroTable n⟩
    | stopStr => exact Or.inr ⟨Or.inr rfl, countOf_zeroTable n⟩
    | stopCam => exact Or.inl (Nat.le_refl _)
    | pollDetection => exact Or.inl (Nat.le_refl _)
    | pollCamera => exact Or.inl (Nat.le_refl _)
    | pollFinal => exact Or.inl (Nat.le_refl _)
  have g4 : camCountStep st (step m st op) op n := by
    cases op with
    | upImage u => exact camCountStep_of_eq st _ _ n (uploadImage_counters m st u).2
    | upVideo u => exact camCountStep_of_eq st _ _ n (uploadVideo_counters m st u).2
    | camFrame inp e =>
        exact (cameraFeed_camera_invariant m st inp e (Op.camFrame inp e) n hcam).2
    | procFrame i => exact camCountStep_of_eq st _ _ n (processFrame_cameraB m st i)
    | finalize =>
        cases hv : st.videoPath with
        | none =>
            have hq : step m st Op.finalize = st := by
              simp [step, finalizeVideo, hv]
            rw [hq]
            exact camCountStep_of_eq st st _ n rfl
        | some p =>
            have hq : (step m st Op.finalize).cameraB = st.cameraB := by
              simp [step, finalizeVideo, hv]
            exact camCountStep_of_eq st _ _ n hq
    | stopStr => exact camCountStep_reset st _ _ n rfl (Or.inl rfl)
    | stopCam => exact camCountStep_reset st _ _ n rfl (Or.inr rfl)
    | pollDetection => exact camCountStep_of_eq st st _ n rfl
    | pollCamera => exact camCountStep_of_eq st st _ n rfl
    | pollFinal => exact camCountStep_of_eq st st _ n rfl
  exact ⟨g1, g2, g3, g4, hpf, hcf⟩

/-- A detector whose single detection resolves to a label outside the
fixed class-name list. -/
def strayDetector : Detector := fun _ => Except.ok ["Cat"]

/-- Witness for C10 at a concrete state, operation and label. -/
theorem c10_counter_invariants_witness :
    keysOf (step (some strayDetector) initState Op.stopStr).cumulative =
      class_names ∧
    camKeysOK (step (some strayDetector) initState Op.stopStr) ∧
    (countOf initState.cumulative "Ripe" ≤
        countOf (step (some strayDetector) initState Op.stopStr).cumulative
          "Ripe" ∨
      (vidResets Op.stopStr ∧
        countOf (step (some strayDetector) initState Op.stopStr).cumulative
            "Ripe" = 0)) ∧
    camCountStep initState (step (some strayDetector) initState Op.stopStr)
      Op.stopStr "Ripe" ∧
    (processFrame (some strayDetector) initState img0).cumulative =
      initState.cumulative ∧
    (cameraFeed (some strayDetector) initState (CamInput.image img0)
        true).1.cameraB = initState.cameraB :=
  c10_counter_invariants (some strayDetector) initState Op.stopStr "Ripe" img0
    ["Cat"] true (by decide) trivial rfl (by decide)

end StrawbyDetect
